import Mathlib

/-!
Verification of the core logic of `native_nvcp_toggle` (src/native_nvcp_toggle.c):
the gamma-ramp builder `BuildGammaRamp`, the default-state detector
`HasDefaultGammaRamp`, the vibrance unit conversions `PercentToDVC` /
`DVCToPercent`, the config loader `LoadConfig`, and the DVC query wrapper
`GetVibrance`.

Modelling conventions:
- C `double` arithmetic is embedded as exact real arithmetic over `ℝ`;
  `pow(v, 1.0/gamma)` becomes `Real.rpow`.
- C `int` is embedded as `ℤ`; C integer division `/` truncates toward zero,
  which is `Int.tdiv` (not Lean's `/` on `ℤ`, which is Euclidean).
- The cast `(WORD)(x)` in `BuildGammaRamp` is applied to a nonnegative double,
  where C truncation is `Int.floor`; the range theorem for C8 shows the value
  is always in `[0, 65535]`, so the narrowing conversion is value-preserving
  and the model needs no `% 65536`.
-/

namespace NvcpToggle

/-! ## Constants (lines 69-73 of the source) -/

/-- Constant `DEFAULT_VIBRANCE_PCT` = 50 (50% = neutral/default in NVCP). -/
def DEFAULT_VIBRANCE_PCT : ℤ := 50

/-- Constant `DEFAULT_HUE` = 0. -/
def DEFAULT_HUE : ℤ := 0

/-- Constant `DEFAULT_BRIGHTNESS` = 0.5. -/
noncomputable def DEFAULT_BRIGHTNESS : ℝ := 0.5

/-- Constant `DEFAULT_CONTRAST` = 0.5. -/
noncomputable def DEFAULT_CONTRAST : ℝ := 0.5

/-- Constant `DEFAULT_GAMMA` = 1.0. -/
noncomputable def DEFAULT_GAMMA : ℝ := 1

/-! ## BuildGammaRamp (lines 114-153) -/

/-- The gamma-correction step (lines 126-128): `if (gamma != 1.0) value =
pow(value, 1.0 / gamma);`. `Real.rpow` models C `pow` on a nonnegative base. -/
noncomputable def gammaCorrect (gamma v : ℝ) : ℝ :=
  if gamma = 1 then v else v ^ ((1 : ℝ) / gamma)

/-- The base-value clamp (lines 135-136): `if (value < 0.0) value = 0.0;
if (value > 1.0) value = 1.0;` applied in sequence. -/
noncomputable def clamp01 (v : ℝ) : ℝ :=
  if (if v < 0 then 0 else v) > 1 then 1 else (if v < 0 then 0 else v)

/-- The per-channel clamp (lines 144-146): `if (r > 1.0) r = 1.0;`. -/
noncomputable def clampHi (v : ℝ) : ℝ :=
  if v > 1 then 1 else v

/-- The per-channel temperature factor (lines 116-119): channel 0 (red) gets
`1.0 + tempFactor*0.1`, channel 1 (green) `1.0 + tempFactor*0.02`, channel 2
(blue) `1.0 - tempFactor*0.1`, with `tempFactor = temperature / 100.0`. -/
noncomputable def tempAdj (temperature : ℤ) (ch : Fin 3) : ℝ :=
  let tempFactor : ℝ := (temperature : ℝ) / 100
  if ch = 0 then 1 + tempFactor * 0.1
  else if ch = 1 then 1 + tempFactor * 0.02
  else 1 - tempFactor * 0.1

/-- Function `BuildGammaRamp` (lines 114-153): the sample written into `ramp[ch][i]`.
The loop body normalizes `i/255`, applies inverse gamma, applies brightness
and contrast, clamps to `[0,1]`, scales by the channel temperature factor,
clamps to `≤ 1`, and converts `value * 65535.0 + 0.5` to a 16-bit word
(truncation of a nonnegative double = `Int.floor`). -/
noncomputable def BuildGammaRamp (brightness contrast gamma : ℝ) (temperature : ℤ)
    (ch : Fin 3) (i : Fin 256) : ℤ :=
  let value0 : ℝ := (i : ℝ) / 255
  let value1 : ℝ := gammaCorrect gamma value0
  let value2 : ℝ := (value1 - 0.5) * (contrast * 2) + 0.5 + (brightness - 0.5)
  let value3 : ℝ := clamp01 value2
  let chVal : ℝ := clampHi (value3 * tempAdj temperature ch)
  ⌊chVal * 65535 + 0.5⌋

/-! ## HasDefaultGammaRamp (lines 158-178) -/

/-- Function `HasDefaultGammaRamp` (lines 158-178). The argument is `none` when
`GetDeviceGammaRamp` fails (the current table cannot be read), in which case
the function returns `true` ("assume default"); otherwise it is the table that
was read. The double loop with early `return false` on
`abs(current - default) > 256` is the universally quantified negation. -/
def HasDefaultGammaRamp (cur : Option (Fin 3 → Fin 256 → ℤ)) : Prop :=
  match cur with
  | none => True
  | some ramp =>
      ∀ ch : Fin 3, ∀ i : Fin 256,
        ¬ (256 < |ramp ch i - BuildGammaRamp DEFAULT_BRIGHTNESS DEFAULT_CONTRAST DEFAULT_GAMMA 0 ch i|)

/-! ## PercentToDVC / DVCToPercent (lines 321-334) -/

/-- Function `PercentToDVC` (lines 321-325): percentage (50-100) to raw DVC value.
C integer division truncates toward zero (`Int.tdiv`). -/
def PercentToDVC (percent dvcMax : ℤ) : ℤ :=
  if percent ≤ 50 then 0
  else if 100 ≤ percent then dvcMax
  else Int.tdiv ((percent - 50) * dvcMax) 50

/-- Function `DVCToPercent` (lines 331-334): raw DVC value to percentage. -/
def DVCToPercent (dvcValue dvcMax : ℤ) : ℤ :=
  if dvcMax = 0 then 50
  else 50 + Int.tdiv (dvcValue * 50) dvcMax

/-! ## GetVibrance (lines 183-198) and the call site in ToggleDisplay (339-345) -/

/-- The driver-reported DVC info (struct `NV_GPU_DVC_INFO_V1`, payload fields). -/
structure DvcInfo where
  currentLevel : ℤ
  minLevel : ℤ
  maxLevel : ℤ

/-- Function `GetVibrance` (lines 183-198). Inputs: whether the undocumented function
pointer `pfnNvAPI_GPU_GetDVCInfo` was resolved, the driver status of the call
(`0` = `NVAPI_OK`), the info the driver would report on success, and the
caller's current `*outMin` / `*outMax` values. Output: the returned level and
the final values of the caller's min/max variables (written only on the
success path, lines 194-195). -/
def GetVibrance (pfnResolved : Bool) (status : ℤ) (info : DvcInfo)
    (outMin outMax : ℤ) : ℤ × ℤ × ℤ :=
  if !pfnResolved then (0, outMin, outMax)
  else if status ≠ 0 then (0, outMin, outMax)
  else (info.currentLevel, info.minLevel, info.maxLevel)

/-- The `ToggleDisplay` prologue (lines 340-341): `int dvcMin = 0, dvcMax = 63;
int currentVibranceRaw = GetVibrance(hNvDisplay, &dvcMin, &dvcMax);` — the
vibrance raw level and the dvcMin/dvcMax values `ToggleDisplay` proceeds with. -/
def toggleDisplayDvcState (pfnResolved : Bool) (status : ℤ) (info : DvcInfo) : ℤ × ℤ × ℤ :=
  GetVibrance pfnResolved status info 0 63

/-! ## LoadConfig (lines 240-295) and its call site in main (lines 401-404) -/

/-- The configuration struct (lines 57-66). Double-valued fields are carried
as `ℚ` (exact values of the parsed literals). -/
structure Config where
  toggleAllDisplays : Bool
  keyPressToExit : Bool
  vibrance : ℤ
  hue : ℤ
  brightness : ℚ
  contrast : ℚ
  gamma : ℚ
  temperature : ℤ
deriving DecidableEq

/-- The built-in defaults `LoadConfig` writes after a successful `fopen`
(lines 248-255). -/
def defaultConfig : Config :=
  { toggleAllDisplays := false
    keyPressToExit := true
    vibrance := 80
    hue := 7
    brightness := 3/5
    contrast := 13/20
    gamma := 143/100
    temperature := 0 }

/-- One recognized `key=value` assignment of the config file, pre-lexed: the
C-string plumbing of lines 257-268 (`fgets`/`sscanf`/whitespace trimming and
`atoi`/`atof`) is abstracted away; what remains is exactly the dispatch on
the key (lines 270-289). Lines that do not parse, comments and blank lines
correspond to `skip`; a recognized key carries its parsed value. -/
inductive ConfigEntry where
  | setToggleAllDisplays (b : Bool)
  | setKeyPressToExit (b : Bool)
  | setVibrance (n : ℤ)
  | setHue (n : ℤ)
  | setBrightness (x : ℚ)
  | setContrast (x : ℚ)
  | setGamma (x : ℚ)
  | setTemperature (n : ℤ)
  | skip

/-- The body of the `while (fgets(...))` loop for one recognized line
(lines 270-289), including the clamp of `temperature` to `[-100, 100]`
(lines 286-288). -/
def applyEntry (cfg : Config) (e : ConfigEntry) : Config :=
  match e with
  | .setToggleAllDisplays b => { cfg with toggleAllDisplays := b }
  | .setKeyPressToExit b => { cfg with keyPressToExit := b }
  | .setVibrance n => { cfg with vibrance := n }
  | .setHue n => { cfg with hue := n }
  | .setBrightness x => { cfg with brightness := x }
  | .setContrast x => { cfg with contrast := x }
  | .setGamma x => { cfg with gamma := x }
  | .setTemperature n =>
      { cfg with temperature := if n < -100 then -100 else if 100 < n then 100 else n }
  | .skip => cfg

/-- Function `LoadConfig` (lines 240-295). The file argument is `none` when `fopen`
fails, `some entries` otherwise. `cfg` is the caller's `Config` object as it
stands before the call (in `main` it is an uninitialized stack variable).
Faithful to the source: when `fopen` fails the function returns `false`
immediately, BEFORE the defaults of lines 248-255 are written, so the
caller's struct is left untouched; defaults are installed only on the
successful-open path, followed by the parse loop. -/
def LoadConfig (file : Option (List ConfigEntry)) (cfg : Config) : Bool × Config :=
  match file with
  | none => (false, cfg)
  | some entries => (true, entries.foldl applyEntry defaultConfig)

/-! ## Helper lemmas about the ramp-building steps -/

/-- Lemma: `clamp01` is the identity on `[0, 1]`. -/
lemma clamp01_eq_self {v : ℝ} (h0 : 0 ≤ v) (h1 : v ≤ 1) : clamp01 v = v := by
  unfold clamp01
  rw [if_neg (not_lt.mpr h0), if_neg (not_lt.mpr h1)]

/-- Lemma: `clampHi` is the identity on values ≤ 1. -/
lemma clampHi_eq_self {v : ℝ} (h1 : v ≤ 1) : clampHi v = v := by
  unfold clampHi
  rw [if_neg (not_lt.mpr h1)]

/-- With temperature 0 every channel factor is 1. -/
lemma tempAdj_zero (ch : Fin 3) : tempAdj 0 ch = 1 := by
  unfold tempAdj
  split_ifs <;> norm_num

/-- The normalized input `i/255` lies in `[0, 1]`. -/
lemma normalized_mem (i : Fin 256) : 0 ≤ (i : ℝ) / 255 ∧ (i : ℝ) / 255 ≤ 1 := by
  have hle : ((i : ℕ) : ℝ) ≤ 255 := by
    have := i.isLt
    exact_mod_cast Nat.le_of_lt_succ this
  have h0 : (0:ℝ) ≤ ((i : ℕ) : ℝ) := Nat.cast_nonneg _
  constructor
  · positivity
  · rw [div_le_one (by norm_num)]
    exact hle

/-- Lemma: `gammaCorrect` is monotone in the value for a positive gamma exponent. -/
lemma gammaCorrect_mono {g : ℝ} (hg : 0 < g) {x y : ℝ} (hx : 0 ≤ x) (hxy : x ≤ y) :
    gammaCorrect g x ≤ gammaCorrect g y := by
  unfold gammaCorrect
  split_ifs
  · exact hxy
  · exact Real.rpow_le_rpow hx hxy (by positivity)

/-- Lemma: `clamp01` is monotone. -/
lemma clamp01_mono {x y : ℝ} (h : x ≤ y) : clamp01 x ≤ clamp01 y := by
  unfold clamp01
  split_ifs <;> linarith

/-- Lemma: `clampHi` is monotone. -/
lemma clampHi_mono {x y : ℝ} (h : x ≤ y) : clampHi x ≤ clampHi y := by
  unfold clampHi
  split_ifs <;> linarith

/-- Lemma: `clamp01` lands in `[0, 1]`. -/
lemma clamp01_mem (v : ℝ) : 0 ≤ clamp01 v ∧ clamp01 v ≤ 1 := by
  unfold clamp01
  split_ifs <;> constructor <;> linarith

/-- Lemma: `clampHi` of a nonnegative value is nonnegative. -/
lemma clampHi_nonneg {v : ℝ} (h : 0 ≤ v) : 0 ≤ clampHi v := by
  unfold clampHi
  split_ifs <;> linarith

/-- Lemma: `clampHi` always lands below 1. -/
lemma clampHi_le_one (v : ℝ) : clampHi v ≤ 1 := by
  unfold clampHi
  split_ifs <;> linarith

/-- For a temperature in `[-100, 100]` every channel factor is in `[0.9, 1.1]`. -/
lemma tempAdj_mem {t : ℤ} (h1 : -100 ≤ t) (h2 : t ≤ 100) (ch : Fin 3) :
    (0.9:ℝ) ≤ tempAdj t ch ∧ tempAdj t ch ≤ 1.1 := by
  have ht1 : (-100:ℝ) ≤ (t:ℝ) := by exact_mod_cast h1
  have ht2 : (t:ℝ) ≤ 100 := by exact_mod_cast h2
  have hf1 : (-1:ℝ) ≤ (t:ℝ) / 100 := by linarith [(le_div_iff (by norm_num : (0:ℝ) < 100)).mpr (by linarith : (-1:ℝ) * 100 ≤ (t:ℝ))]
  have hf2 : (t:ℝ) / 100 ≤ 1 := (div_le_one (by norm_num)).mpr ht2
  unfold tempAdj
  split_ifs <;> constructor <;> linarith

/-- The 16-bit scaling `⌊x * 65535 + 0.5⌋` of an `x ∈ [0,1]` is in `[0, 65535]`. -/
lemma word_range {x : ℝ} (h0 : 0 ≤ x) (h1 : x ≤ 1) :
    0 ≤ ⌊x * 65535 + (0.5:ℝ)⌋ ∧ ⌊x * 65535 + (0.5:ℝ)⌋ ≤ 65535 := by
  constructor
  · exact Int.floor_nonneg.mpr (by nlinarith)
  · have : ⌊x * 65535 + (0.5:ℝ)⌋ < 65536 := Int.floor_lt.mpr (by push_cast; nlinarith)
    omega

/-! ## Theorems -/

/-- C2: for the neutral parameters (brightness 0.5, contrast 0.5, gamma 1.0,
temperature 0), `BuildGammaRamp` produces the identity ramp: every channel's
sample i equals round-half-up of `i/255*65535`. -/
theorem buildGammaRamp_neutral_identity (ch : Fin 3) (i : Fin 256) :
    BuildGammaRamp 0.5 0.5 1 0 ch i = ⌊(i : ℝ) / 255 * 65535 + 0.5⌋ := by
  obtain ⟨h0, h1⟩ := normalized_mem i
  simp only [BuildGammaRamp]
  have hg : gammaCorrect 1 ((i : ℝ) / 255) = (i : ℝ) / 255 := by
    unfold gammaCorrect
    rw [if_pos rfl]
  rw [hg]
  have hbc : ((i : ℝ) / 255 - 0.5) * ((0.5:ℝ) * 2) + 0.5 + ((0.5:ℝ) - 0.5)
      = (i : ℝ) / 255 := by ring_nf
  rw [hbc, clamp01_eq_self h0 h1, tempAdj_zero, mul_one, clampHi_eq_self h1]

/-- C1: `HasDefaultGammaRamp` returns true when the current table cannot be
read, and otherwise returns true iff for every channel and sample index the
absolute difference from the table built from the neutral adjustment
(brightness 0.5, contrast 0.5, gamma 1.0, temperature 0) is at most 256. -/
theorem hasDefaultGammaRamp_spec :
    HasDefaultGammaRamp none ∧
    ∀ cur : Fin 3 → Fin 256 → ℤ,
      (HasDefaultGammaRamp (some cur) ↔
        ∀ (ch : Fin 3) (i : Fin 256),
          |cur ch i - BuildGammaRamp 0.5 0.5 1 0 ch i| ≤ 256) := by
  refine ⟨trivial, fun cur => ?_⟩
  simp only [HasDefaultGammaRamp, DEFAULT_BRIGHTNESS, DEFAULT_CONTRAST,
    DEFAULT_GAMMA, not_lt]


/-- C3: for every brightness and contrast in `[0,1]`, every gamma > 0 and
every temperature in `[-100,100]`, each per-channel 256-sample sequence
produced by `BuildGammaRamp` is monotonically non-decreasing in the index. -/
theorem buildGammaRamp_monotone (b c g : ℝ) (t : ℤ)
    (hb0 : 0 ≤ b) (hb1 : b ≤ 1) (hc0 : 0 ≤ c) (hc1 : c ≤ 1)
    (hg : 0 < g) (ht1 : -100 ≤ t) (ht2 : t ≤ 100) (ch : Fin 3) :
    Monotone (fun i : Fin 256 => BuildGammaRamp b c g t ch i) := by
  intro i j hij
  simp only [BuildGammaRamp]
  have hnat : (i : ℕ) ≤ (j : ℕ) := hij
  have hv : (i : ℝ) / 255 ≤ (j : ℝ) / 255 := by
    have : ((i:ℕ):ℝ) ≤ ((j:ℕ):ℝ) := by exact_mod_cast hnat
    linarith
  have h1 := gammaCorrect_mono hg (normalized_mem i).1 hv
  have h1' := mul_le_mul_of_nonneg_right (sub_le_sub_right h1 (0.5:ℝ))
    (show (0:ℝ) ≤ c * 2 by linarith)
  have h2 : (gammaCorrect g ((i:ℝ)/255) - 0.5) * (c*2) + 0.5 + (b - 0.5)
      ≤ (gammaCorrect g ((j:ℝ)/255) - 0.5) * (c*2) + 0.5 + (b - 0.5) := by linarith
  have h3 := clamp01_mono h2
  have hadj := (tempAdj_mem ht1 ht2 ch).1
  have h4 := mul_le_mul_of_nonneg_right h3 (show (0:ℝ) ≤ tempAdj t ch by linarith)
  have h5 := clampHi_mono h4
  exact Int.floor_le_floor (by linarith)

/-- Witness for C3 at brightness 1/2, contrast 1/2, gamma 2, temperature 0,
red channel. -/
theorem buildGammaRamp_monotone_witness :
    (0:ℝ) ≤ 1/2 ∧ (1/2:ℝ) ≤ 1 ∧ (0:ℝ) < 2 ∧ (-100:ℤ) ≤ 0 ∧ (0:ℤ) ≤ 100 ∧
    Monotone (fun i : Fin 256 => BuildGammaRamp (1/2) (1/2) 2 0 0 i) :=
  ⟨by norm_num, by norm_num, by norm_num, by decide, by decide,
    buildGammaRamp_monotone (1/2) (1/2) 2 0 (by norm_num) (by norm_num)
      (by norm_num) (by norm_num) (by norm_num) (by decide) (by decide) 0⟩

/-- C8: for every brightness and contrast in `[0,1]`, every gamma > 0 and
every temperature in `[-100,100]`, every sample `BuildGammaRamp` writes is in
`[0, 65535]`, so the narrowing conversion to a 16-bit word never wraps. -/
theorem buildGammaRamp_range (b c g : ℝ) (t : ℤ)
    (hb0 : 0 ≤ b) (hb1 : b ≤ 1) (hc0 : 0 ≤ c) (hc1 : c ≤ 1)
    (hg : 0 < g) (ht1 : -100 ≤ t) (ht2 : t ≤ 100) (ch : Fin 3) (i : Fin 256) :
    0 ≤ BuildGammaRamp b c g t ch i ∧ BuildGammaRamp b c g t ch i ≤ 65535 := by
  simp only [BuildGammaRamp]
  obtain ⟨hm0, _⟩ := clamp01_mem
    ((gammaCorrect g ((i:ℝ)/255) - 0.5) * (c*2) + 0.5 + (b - 0.5))
  obtain ⟨hadj1, _⟩ := tempAdj_mem ht1 ht2 ch
  have hw0 : (0:ℝ) ≤ clamp01 ((gammaCorrect g ((i:ℝ)/255) - 0.5) * (c*2) + 0.5 + (b - 0.5))
      * tempAdj t ch := mul_nonneg hm0 (by linarith)
  exact word_range (clampHi_nonneg hw0) (clampHi_le_one _)

/-- Witness for C8 at brightness 1/2, contrast 1/2, gamma 2, temperature 0,
red channel, index 7. -/
theorem buildGammaRamp_range_witness :
    (0:ℝ) ≤ 1/2 ∧ (1/2:ℝ) ≤ 1 ∧ (0:ℝ) < 2 ∧ (-100:ℤ) ≤ 0 ∧ (0:ℤ) ≤ 100 ∧
    (0 ≤ BuildGammaRamp (1/2) (1/2) 2 0 0 7 ∧ BuildGammaRamp (1/2) (1/2) 2 0 0 7 ≤ 65535) :=
  ⟨by norm_num, by norm_num, by norm_num, by decide, by decide,
    buildGammaRamp_range (1/2) (1/2) 2 0 (by norm_num) (by norm_num)
      (by norm_num) (by norm_num) (by norm_num) (by decide) (by decide) 0 7⟩

/-- Rational bounds on the inverse-gamma value `(128/255)^(1/1.43)` =
`(128/255)^(100/143)`, certified by raising both sides to the 143rd power. -/
lemma rpow_custom_bounds :
    (12351/20000 : ℝ) < (128/255 : ℝ) ^ ((100:ℝ)/143) ∧
    (128/255 : ℝ) ^ ((100:ℝ)/143) < 1543897/2500000 := by
  have hx : (0:ℝ) ≤ 128/255 := by norm_num
  have hp : (0:ℝ) ≤ (128/255 : ℝ) ^ ((100:ℝ)/143) := Real.rpow_nonneg hx _
  have key : ((128/255 : ℝ) ^ ((100:ℝ)/143)) ^ (143:ℕ) = (128/255 : ℝ) ^ (100:ℕ) := by
    rw [← Real.rpow_natCast ((128/255 : ℝ) ^ ((100:ℝ)/143)) 143, ← Real.rpow_mul hx]
    rw [show ((100:ℝ)/143) * ((143:ℕ):ℝ) = ((100:ℕ):ℝ) by push_cast; ring]
    rw [Real.rpow_natCast]
  constructor
  · by_contra hle
    push_neg at hle
    have h2 : ((128/255 : ℝ) ^ ((100:ℝ)/143)) ^ (143:ℕ) ≤ (12351/20000 : ℝ) ^ (143:ℕ) :=
      pow_le_pow_left₀ hp hle 143
    rw [key] at h2
    exact absurd h2 (not_le.mpr (by norm_num))
  · by_contra hle
    push_neg at hle
    have h2 : (1543897/2500000 : ℝ) ^ (143:ℕ) ≤ ((128/255 : ℝ) ^ ((100:ℝ)/143)) ^ (143:ℕ) :=
      pow_le_pow_left₀ (by norm_num) hle 143
    rw [key] at h2
    exact absurd h2 (not_le.mpr (by norm_num))

/-- The sample `BuildGammaRamp` actually produces at index 128 for
brightness 0.60, contrast 0.65, gamma 1.43, temperature 0: 49336,
on every channel. -/
lemma buildGammaRamp_custom_at128 (ch : Fin 3) :
    BuildGammaRamp 0.6 0.65 1.43 0 ch 128 = 49336 := by
  obtain ⟨hlo, hhi⟩ := rpow_custom_bounds
  simp only [BuildGammaRamp]
  have hval : (((128 : Fin 256) : ℕ) : ℝ) = 128 := by
    rw [show ((128 : Fin 256) : ℕ) = 128 from rfl]
    norm_num
  rw [hval]
  have hgc : gammaCorrect 1.43 ((128:ℝ)/255) = (128/255 : ℝ) ^ ((100:ℝ)/143) := by
    unfold gammaCorrect
    rw [if_neg (by norm_num)]
    norm_num
  rw [hgc]
  have hv2lo : (0.752:ℝ) ≤ ((128/255 : ℝ) ^ ((100:ℝ)/143) - 0.5) * ((0.65:ℝ) * 2) + 0.5 + ((0.6:ℝ) - 0.5) := by
    linarith
  have hv2hi : ((128/255 : ℝ) ^ ((100:ℝ)/143) - 0.5) * ((0.65:ℝ) * 2) + 0.5 + ((0.6:ℝ) - 0.5) ≤ (0.753:ℝ) := by
    linarith
  rw [clamp01_eq_self (by linarith) (by linarith), tempAdj_zero, mul_one,
    clampHi_eq_self (by linarith)]
  rw [Int.floor_eq_iff]
  push_cast
  constructor <;> linarith

/-- C7 as stated is false: at index 128 with brightness 0.60, contrast 0.65,
gamma 1.43, temperature 0, the red-channel sample is not 51223 (the spec's
worked derivation misevaluates `0.50196^0.6993`: it is ≈ 0.61756, not
≈ 0.6397). -/
theorem buildGammaRamp_custom128_counterexample :
    BuildGammaRamp 0.6 0.65 1.43 0 0 128 ≠ 51223 := by
  rw [buildGammaRamp_custom_at128]
  decide

/-- C7 amended: `BuildGammaRamp` with brightness 0.60, contrast 0.65, gamma
1.43, temperature 0 produces at sample index 128 the value 49336 on all three
channels (inverse gamma gives `(128/255)^(1/1.43)` ≈ 0.61756, then
`(0.61756-0.5)*1.3+0.6` ≈ 0.75283, and `round(0.75283*65535)` = 49336). -/
theorem buildGammaRamp_custom128_value :
    BuildGammaRamp 0.6 0.65 1.43 0 0 128 = 49336 ∧
    BuildGammaRamp 0.6 0.65 1.43 0 1 128 = 49336 ∧
    BuildGammaRamp 0.6 0.65 1.43 0 2 128 = 49336 :=
  ⟨buildGammaRamp_custom_at128 0, buildGammaRamp_custom_at128 1,
    buildGammaRamp_custom_at128 2⟩

/-- C5: For every integer M > 0: `PercentToDVC(50, M) = 0`,
`PercentToDVC(100, M) = M`, `DVCToPercent(0, M) = 50`, and
`DVCToPercent(M, M) = 100`. -/
theorem dvc_conversion_endpoints (M : ℤ) (hM : 0 < M) :
    PercentToDVC 50 M = 0 ∧ PercentToDVC 100 M = M ∧
    DVCToPercent 0 M = 50 ∧ DVCToPercent M M = 100 := by
  refine ⟨by simp [PercentToDVC], by norm_num [PercentToDVC], ?_, ?_⟩
  · simp [DVCToPercent, hM.ne']
  · have h50 : Int.tdiv (M * 50) M = 50 := by
      rw [mul_comm]
      exact Int.mul_tdiv_cancel 50 hM.ne'
    simp [DVCToPercent, hM.ne', h50]

/-- Witness for C5 at M = 63. -/
theorem dvc_conversion_endpoints_witness :
    (0:ℤ) < 63 ∧
    (PercentToDVC 50 63 = 0 ∧ PercentToDVC 100 63 = 63 ∧
     DVCToPercent 0 63 = 50 ∧ DVCToPercent 63 63 = 100) :=
  ⟨by decide, dvc_conversion_endpoints 63 (by decide)⟩

/-- C6: for pct in {50, 60, 70, 80, 90, 100} and M = 63, the round-trip
`DVCToPercent(PercentToDVC(pct, 63), 63)` differs from pct by at most 1. -/
theorem dvc_roundtrip_within_one :
    |DVCToPercent (PercentToDVC 50 63) 63 - 50| ≤ 1 ∧
    |DVCToPercent (PercentToDVC 60 63) 63 - 60| ≤ 1 ∧
    |DVCToPercent (PercentToDVC 70 63) 63 - 70| ≤ 1 ∧
    |DVCToPercent (PercentToDVC 80 63) 63 - 80| ≤ 1 ∧
    |DVCToPercent (PercentToDVC 90 63) 63 - 90| ≤ 1 ∧
    |DVCToPercent (PercentToDVC 100 63) 63 - 100| ≤ 1 := by
  decide

/-- C9 as stated is false: with dvcMax = 63 > 0, `DVCToPercent 126 63 = 150`,
which is outside [50, 100] (the claim does not restrict the raw input to the
range [0, dvcMax]). -/
theorem dvc_percent_range_counterexample :
    (0:ℤ) < 63 ∧ ¬ (50 ≤ DVCToPercent 126 63 ∧ DVCToPercent 126 63 ≤ 100) := by
  decide

/-- C9 amended: `PercentToDVC` maps any percent ≤ 50 to 0 and any percent
≥ 100 to dvcMax, and for dvcMax > 0 and a raw value in [0, dvcMax] the result
of `DVCToPercent` lies in [50, 100]. -/
theorem dvc_percent_range (pct M v : ℤ) (hM : 0 < M) :
    (pct ≤ 50 → PercentToDVC pct M = 0) ∧
    (100 ≤ pct → PercentToDVC pct M = M) ∧
    (0 ≤ v → v ≤ M → 50 ≤ DVCToPercent v M ∧ DVCToPercent v M ≤ 100) := by
  refine ⟨fun h => by simp [PercentToDVC, h], fun h => ?_, fun hv0 hvM => ?_⟩
  · have : ¬ pct ≤ 50 := by omega
    simp [PercentToDVC, this, h]
  · have hq0 : 0 ≤ Int.tdiv (v * 50) M := Int.tdiv_nonneg (by positivity) hM.le
    have hq50 : Int.tdiv (v * 50) M ≤ 50 := by
      have hle : v * 50 ≤ M * 50 := by nlinarith
      calc Int.tdiv (v * 50) M = (v * 50) / M :=
              Int.tdiv_eq_ediv (by positivity) hM.le
        _ ≤ (M * 50) / M := Int.ediv_le_ediv hM hle
        _ = 50 := by rw [mul_comm]; exact Int.mul_ediv_cancel 50 hM.ne'
    constructor <;> simp [DVCToPercent, hM.ne'] <;> omega

/-- Witness for C9's amended theorem at pct = 30 / 120, M = 63, v = 40. -/
theorem dvc_percent_range_witness :
    (0:ℤ) < 63 ∧ (30 : ℤ) ≤ 50 ∧ PercentToDVC 30 63 = 0 ∧
    (0:ℤ) ≤ 40 ∧ (40:ℤ) ≤ 63 ∧
    50 ≤ DVCToPercent 40 63 ∧ DVCToPercent 40 63 ≤ 100 := by
  refine ⟨by decide, by decide, (dvc_percent_range 30 63 40 (by decide)).1 (by decide),
    by decide, by decide, ?_, ?_⟩
  · exact ((dvc_percent_range 30 63 40 (by decide)).2.2 (by decide) (by decide)).1
  · exact ((dvc_percent_range 30 63 40 (by decide)).2.2 (by decide) (by decide)).2

/-- C10: when the DVC query fails (unresolved function pointer or a non-OK
driver status), `GetVibrance` returns 0 and leaves the caller's outMin/outMax
unchanged, so `ToggleDisplay` proceeds with dvcMin = 0, dvcMax = 63; the
min/max outputs are written only when the query succeeds. -/
theorem getVibrance_frame (pfn : Bool) (status : ℤ) (info : DvcInfo) (m M : ℤ) :
    (pfn = false ∨ status ≠ 0 →
      GetVibrance pfn status info m M = (0, m, M) ∧
      toggleDisplayDvcState pfn status info = (0, 0, 63)) ∧
    (pfn = true ∧ status = 0 →
      GetVibrance pfn status info m M =
        (info.currentLevel, info.minLevel, info.maxLevel)) := by
  constructor
  · rintro (h | h)
    · subst h; exact ⟨rfl, rfl⟩
    · cases pfn <;> simp [GetVibrance, toggleDisplayDvcState, h]
  · rintro ⟨h1, h2⟩
    subst h1; subst h2
    rfl

/-- Witness for C10: a failed query (unresolved pointer) with outMin = 5,
outMax = 9 returns 0 and leaves them unchanged, and `ToggleDisplay` proceeds
with (0, 0, 63). -/
theorem getVibrance_frame_witness :
    GetVibrance false 0 ⟨7, 1, 2⟩ 5 9 = (0, 5, 9) ∧
    toggleDisplayDvcState false 0 ⟨7, 1, 2⟩ = (0, 0, 63) :=
  (getVibrance_frame false 0 ⟨7, 1, 2⟩ 5 9).1 (Or.inl rfl)

/-- C4 is a bug in the code: when `fopen` fails, `LoadConfig` returns `false`
before the built-in defaults are written (they are set only after a
successful open, lines 248-255), so `main` (lines 401-404) continues with the
uninitialized `Config` — not with the built-in defaults, contrary to the spec
and to the program's own "Using default configuration values." message. The
theorem evaluates the code at the failing input: whatever garbage `cfg` held,
it is returned unchanged, and for a concrete garbage value it differs from
`defaultConfig`. -/
theorem loadConfig_missing_file_bug :
    (∀ cfg : Config, LoadConfig none cfg = (false, cfg)) ∧
    (LoadConfig none ⟨true, false, 0, 0, 0, 0, 0, 0⟩).2 ≠ defaultConfig := by
  exact ⟨fun _ => rfl, by decide⟩

end NvcpToggle
